import Mathlib

/-!
Shallow embedding of the license-management core of the Wingman application
(`src/src-tauri/src/license.rs`).

Modelling conventions:
* Instants are `Int` (Unix seconds, UTC); `chrono::Duration::days n` is
  `n * 86400` seconds and `Duration::num_days` is truncating division by
  86400 (Rust `i64` division truncates toward zero), written `Int.tdiv`.
* The timestamp fields of the cache are `Option String` exactly as in the
  Rust struct; `chrono::DateTime::parse_from_rfc3339` (followed by
  `with_timezone(&Utc)`) is abstracted as a parameter
  `parse : String → Option Int`, and `to_rfc3339` as `toRfc : Int → String`.
* Effectful library calls (file system, network, randomness, AES-GCM,
  SHA-256, base64, serde-JSON) are passed in as explicit values or function
  parameters, so every function here is the pure core of the corresponding
  Rust function, with the same branching structure.
-/

namespace Wingman

/-- Seconds in a day, the unit conversion used by `chrono::Duration::days`. -/
def secsPerDay : Int := 86400

/-- Duration in seconds of `chrono::Duration::days n`. -/
def durationDays (n : Int) : Int := n * secsPerDay

/-- Model of `chrono::Duration::num_days` on a whole-second duration: Rust
`i64` division truncates toward zero. -/
def numDays (secs : Int) : Int := Int.tdiv secs secsPerDay

/-- Constant `OFFLINE_CHECK_DAYS` from `license.rs`. -/
def OFFLINE_CHECK_DAYS : Int := 30

/-- Constant `GRACE_PERIOD_DAYS` from `license.rs`. -/
def GRACE_PERIOD_DAYS : Int := 90

/-- Enum `LicenseTier` from `license.rs`. -/
inductive LicenseTier
  | Free
  | Pro
deriving DecidableEq, Repr

/-- Enum `LicenseStatus` from `license.rs`. -/
inductive LicenseStatus
  | Valid
  | GracePeriod
  | Expired
  | Invalid
  | NotActivated
deriving DecidableEq, Repr

/-- Enum `ProFeature` from `license.rs`. -/
inductive ProFeature
  | History
  | SyntaxHighlighting
  | Snippets
  | CustomThemes
  | StatsDisplay
  | ExportHistory
deriving DecidableEq, Repr

/-- Error type `LicenseError` from `license.rs` (each payload is the
formatted message). -/
inductive LicenseError
  | DeviceIdError (msg : String)
  | EncryptionError (msg : String)
  | NetworkError (msg : String)
  | InvalidLicense
  | LicenseExpired
  | DeviceLimitExceeded
  | StorageError (msg : String)
  | ValidationError (msg : String)
deriving DecidableEq, Repr

/-- Struct `LicenseCache` from `license.rs`: the persisted entitlement record.
The three timestamp fields are ISO-8601 strings, as in the source. -/
structure LicenseCache where
  license_key : Option String
  email : Option String
  tier : LicenseTier
  status : LicenseStatus
  device_id : String
  last_validated : Option String
  validation_expires : Option String
  grace_period_start : Option String
deriving DecidableEq, Repr

/-- Default record `LicenseCache::default()` from `license.rs`. -/
def LicenseCache.default : LicenseCache where
  license_key := none
  email := none
  tier := .Free
  status := .NotActivated
  device_id := ""
  last_validated := none
  validation_expires := none
  grace_period_start := none

/-- Struct `LicenseStatusInfo` from `license.rs`: what a status check
returns. -/
structure LicenseStatusInfo where
  tier : LicenseTier
  status : LicenseStatus
  email : Option String
  days_until_expiry : Option Int
  needs_revalidation : Bool
deriving DecidableEq, Repr

/-- Function `check_license_status` from `license.rs`, as a pure function of the
result of `load_license_cache()` (the `?` on line 394), the current time
`now` (`chrono::Utc::now()`), and the RFC-3339 parser. -/
def check_license_status (parse : String → Option Int)
    (loadResult : Except LicenseError LicenseCache) (now : Int) :
    Except LicenseError LicenseStatusInfo :=
  match loadResult with
  | .error e => .error e
  | .ok cache =>
    -- No license activated
    if cache.license_key.isNone then
      .ok { tier := .Free, status := .NotActivated, email := none,
            days_until_expiry := none, needs_revalidation := false }
    else
      match cache.validation_expires with
      | some expires_str =>
        match parse expires_str with
        | some expires_utc =>
          if now > expires_utc then
            -- Validation expired, check grace period
            let grace_start :=
              ((cache.grace_period_start.bind fun s => parse s).getD expires_utc)
            let grace_end := grace_start + durationDays GRACE_PERIOD_DAYS
            let days_left := numDays (grace_end - now)
            if now > grace_end then
              -- Grace period expired
              .ok { tier := .Free, status := .Expired, email := cache.email,
                    days_until_expiry := some 0, needs_revalidation := true }
            else
              -- In grace period
              .ok { tier := cache.tier, status := .GracePeriod,
                    email := cache.email,
                    days_until_expiry := some (max days_left 0),
                    needs_revalidation := true }
          else
            -- Still valid
            let days_left := numDays (expires_utc - now)
            .ok { tier := cache.tier, status := .Valid, email := cache.email,
                  days_until_expiry := some (max days_left 0),
                  needs_revalidation := decide (days_left < 7) }
        | none =>
          -- Fallback: treat as needing revalidation
          .ok { tier := cache.tier, status := cache.status,
                email := cache.email, days_until_expiry := none,
                needs_revalidation := true }
      | none =>
        .ok { tier := cache.tier, status := cache.status,
              email := cache.email, days_until_expiry := none,
              needs_revalidation := true }

/-- Function `is_feature_enabled` from `license.rs`, over the same pure core of
`check_license_status`. -/
def is_feature_enabled (parse : String → Option Int)
    (loadResult : Except LicenseError LicenseCache) (now : Int)
    ( _feature : ProFeature) : Bool :=
  match check_license_status parse loadResult now with
  | .error _ => false
  | .ok status =>
    -- Pro features require valid or grace period status
    match status.status with
    | .Valid | .GracePeriod => status.tier = .Pro
    | _ => false


/-- Abstract byte strings (the model works at byte granularity; a byte is a
`Nat`). -/
abbrev Bytes := List Nat

/-- Model of `str::as_bytes`: one abstract byte per character (codepoint
granularity; SHA-256 below is abstract, so only injectivity-relevant
structure matters). -/
def strBytes (s : String) : Bytes := s.toList.map Char.toNat

/-- Model of `str::contains(pat)`: substring containment. -/
def strContains (s pat : String) : Bool := decide (pat.toList <:+: s.toList)

/-- The library primitives used by the encrypted cache store
(`sha2::Sha256`, `serde_json`, `base64`, `aes_gcm::Aes256Gcm`), abstracted
as one bundle of pure functions. -/
structure CryptoModel where
  sha256 : Bytes → Bytes
  serialize : LicenseCache → Bytes
  deserialize : Bytes → Option LicenseCache
  b64encode : Bytes → String
  b64decode : String → Option Bytes
  aeadEncrypt : Bytes → Bytes → Bytes → Bytes
  aeadDecrypt : Bytes → Bytes → Bytes → Option Bytes

/-- Function `derive_key` from `license.rs`: SHA-256 over the device id bytes
followed by the fixed application salt (two `update` calls hash the
concatenation). -/
def derive_key (cm : CryptoModel) (device_id : String) : Bytes :=
  cm.sha256 (strBytes device_id ++ strBytes "wingman-license-key-salt-v1")

/-- Function `encrypt_cache` from `license.rs`: serialize the record, AEAD-encrypt
it under the device-derived key with the freshly drawn 12-byte `nonce`,
prepend the nonce, base64-encode. The fallible library constructors on the
Rust side never fail on this path, hence the `Except` result is always
`ok`, as in the source shape. -/
def encrypt_cache (cm : CryptoModel) (nonce : Bytes)
    (cache : LicenseCache) (device_id : String) : Except LicenseError String :=
  let key := derive_key cm device_id
  let plaintext := cm.serialize cache
  let ciphertext := cm.aeadEncrypt key nonce plaintext
  -- Prepend nonce to ciphertext
  .ok (cm.b64encode (nonce ++ ciphertext))

/-- Function `decrypt_cache` from `license.rs`: base64-decode, reject blobs shorter
than the 12-byte nonce, split nonce from ciphertext, AEAD-decrypt,
deserialize. Every failure is an `EncryptionError`, as in the source. -/
def decrypt_cache (cm : CryptoModel) (encrypted : String)
    (device_id : String) : Except LicenseError LicenseCache :=
  let key := derive_key cm device_id
  match cm.b64decode encrypted with
  | none => .error (.EncryptionError "base64 decode error")
  | some data =>
    if data.length < 12 then
      .error (.EncryptionError "Invalid encrypted data")
    else
      let nonce_bytes := data.take 12
      let ciphertext := data.drop 12
      match cm.aeadDecrypt key nonce_bytes ciphertext with
      | none => .error (.EncryptionError "aead decrypt error")
      | some plaintext =>
        match cm.deserialize plaintext with
        | none => .error (.EncryptionError "deserialize error")
        | some cache => .ok cache

/-- The license cache file, the one piece of file-system state this module
owns (`license.enc`); `none` means the file does not exist. -/
structure FileState where
  cacheFile : Option String
deriving DecidableEq, Repr

/-- Function `load_license_cache` from `license.rs`, as a pure function of the
device id (from `get_device_id()`) and the cache file contents: a missing
file yields the default record carrying the device id; otherwise the file
is decrypted. -/
def load_license_cache (cm : CryptoModel) (device_id : String)
    (fs : FileState) : Except LicenseError LicenseCache :=
  match fs.cacheFile with
  | none => .ok { LicenseCache.default with device_id := device_id }
  | some encrypted => decrypt_cache cm encrypted device_id

/-- Function `clear_license_cache` from `license.rs`: delete the file if it exists
(the local remove is modelled as succeeding). -/
def clear_license_cache (fs : FileState) :
    Except LicenseError Unit × FileState :=
  match fs.cacheFile with
  | some _ => (.ok (), { cacheFile := none })
  | none => (.ok (), fs)

/-- Struct `ValidateLicenseResponse` from `license.rs`. -/
structure ValidateLicenseResponse where
  valid : Bool
  tier : Option String
  error : Option String
  message : Option String
deriving DecidableEq, Repr

/-- Struct `DeactivateResponse` from `license.rs`. -/
structure DeactivateResponse where
  success : Bool
  error : Option String
deriving DecidableEq, Repr

/-- Outcome of one HTTP round-trip: either the send itself failed
(`reqwest` error), or a response arrived with an HTTP status (recorded as
`status_is_success = HttpStatus::is_success()`) and a body whose JSON
decoding may itself have failed (`Except` payload, carrying the decode
error message). -/
inductive HttpOutcome (β : Type)
  | sendFailure (msg : String)
  | response (status_is_success : Bool) (body : Except String β)

/-- Function `validate_license_online` from `license.rs`, as a pure function of the
inputs, the HTTP status flag, the decoded response body, the clock, the
RFC-3339 printer, and the outcome of `save_license_cache` on the record
being persisted. Send/body-decode failures happen before this logic and
are surfaced as `NetworkError` by the source unchanged. -/
def validate_license_online (license_key email device_id : String)
    (status_is_success : Bool) (body : ValidateLicenseResponse) (now : Int)
    (toRfc : Int → String)
    (save_result : LicenseCache → Except LicenseError Unit) :
    Except LicenseError LicenseCache :=
  if !body.valid then
    match body.error with
    | some err =>
      if strContains err "device limit" then
        .error .DeviceLimitExceeded
      else
        .error (.ValidationError err)
    | none => .error .InvalidLicense
  else if !status_is_success then
    .error (.ValidationError (body.message.getD "Validation failed"))
  else
    let expires := now + durationDays OFFLINE_CHECK_DAYS
    let tier : LicenseTier :=
      match body.tier with
      | some t => if t = "pro" then .Pro else .Free
      | _ => .Free
    let cache : LicenseCache :=
      { license_key := some license_key
        email := some email
        tier := tier
        status := .Valid
        device_id := device_id
        last_validated := some (toRfc now)
        validation_expires := some (toRfc expires)
        grace_period_start := none }
    match save_result cache with
    | .error e => .error e
    | .ok _ => .ok cache

/-- Function `deactivate_license_online` from `license.rs`, as a pure function of
the `get_device_id()` result, the HTTP round-trip outcome, and the cache
file state. Note that the source never reads the response status: it goes
straight from `send` to `.json()`. Returns the Rust result paired with the
resulting file state. -/
def deactivate_license_online (deviceIdResult : Except LicenseError String)
    (http : HttpOutcome DeactivateResponse) (fs : FileState) :
    Except LicenseError Unit × FileState :=
  match deviceIdResult with
  | .error e => (.error e, fs)
  | .ok _device_id =>
    match http with
    | .sendFailure msg => (.error (.NetworkError msg), fs)
    | .response _status bodyResult =>
      match bodyResult with
      | .error msg => (.error (.NetworkError msg), fs)
      | .ok body =>
        if !body.success then
          (.error (.ValidationError (body.error.getD "Deactivation failed")), fs)
        else
          let cleared := clear_license_cache fs
          match cleared.1 with
          | .error e => (.error e, cleared.2)
          | .ok _ => (.ok (), cleared.2)

end Wingman



namespace Wingman

/-- A status check propagates any cache-load error unchanged. -/
theorem check_err (parse : String → Option Int) (e : LicenseError) (now : Int) :
    check_license_status parse (.error e) now = .error e := rfl

/-- Status check on a record with no license key. -/
theorem check_no_key (parse : String → Option Int) (c : LicenseCache)
    (now : Int) (hk : c.license_key = none) :
    check_license_status parse (.ok c) now =
      .ok { tier := .Free, status := .NotActivated, email := none,
            days_until_expiry := none, needs_revalidation := false } := by
  simp [check_license_status, hk]

/-- Status check in the fallback branch: license key present but
`validation_expires` absent or unparseable. -/
theorem check_fallback (parse : String → Option Int) (c : LicenseCache)
    (now : Int) (hk : c.license_key.isSome)
    (hF : c.validation_expires.bind parse = none) :
    check_license_status parse (.ok c) now =
      .ok { tier := c.tier, status := c.status, email := c.email,
            days_until_expiry := none, needs_revalidation := true } := by
  rcases hkey : c.license_key with _ | k
  · rw [hkey] at hk; simp at hk
  · rcases hves : c.validation_expires with _ | es
    · simp [check_license_status, hkey, hves]
    · have hpe : parse es = none := by rw [hves] at hF; simpa using hF
      simp [check_license_status, hkey, hves, hpe]

/-- Status check when the license key is present and `validation_expires`
parses: the full three-way temporal case split of the engine. -/
theorem check_parsed (parse : String → Option Int) (c : LicenseCache)
    (now : Int) (es : String) (E : Int) (hk : c.license_key.isSome)
    (hes : c.validation_expires = some es) (hE : parse es = some E) :
    check_license_status parse (.ok c) now =
      (if now > E then
        (if now > ((c.grace_period_start.bind fun s => parse s).getD E) +
            durationDays GRACE_PERIOD_DAYS then
          .ok { tier := .Free, status := .Expired, email := c.email,
                days_until_expiry := some 0, needs_revalidation := true }
        else
          .ok { tier := c.tier, status := .GracePeriod, email := c.email,
                days_until_expiry := some (max (numDays
                  (((c.grace_period_start.bind fun s => parse s).getD E) +
                    durationDays GRACE_PERIOD_DAYS - now)) 0),
                needs_revalidation := true })
      else
        .ok { tier := c.tier, status := .Valid, email := c.email,
              days_until_expiry := some (max (numDays (E - now)) 0),
              needs_revalidation := decide (numDays (E - now) < 7) }) := by
  rcases hkey : c.license_key with _ | k
  · rw [hkey] at hk; simp at hk
  · simp [check_license_status, hkey, hes, hE]

end Wingman

namespace Wingman

/-- C2: `is_feature_enabled` returns true iff the status check succeeds
and yields status `Valid` or `GracePeriod` together with tier `Pro`; in
every other case, including a failing status check, it returns false. -/
theorem C2_is_feature_enabled_iff (parse : String → Option Int)
    (loadResult : Except LicenseError LicenseCache) (now : Int)
    (feature : ProFeature) :
    is_feature_enabled parse loadResult now feature = true ↔
      ∃ info, check_license_status parse loadResult now = .ok info ∧
        (info.status = .Valid ∨ info.status = .GracePeriod) ∧
        info.tier = .Pro := by
  unfold is_feature_enabled
  cases hc : check_license_status parse loadResult now with
  | error e => simp
  | ok info =>
    obtain ⟨t, st, em, d, nr⟩ := info
    cases st <;> cases t <;> simp_all

/-- C7: revalidation policy of the status engine. With no license key,
`needs_revalidation` is false. In a `Valid` result obtained from a parsed
`validation_expires = E`, `needs_revalidation` is true iff the whole-day
count from `now` to `E` is below 7. Every `GracePeriod` or `Expired`
result carries `needs_revalidation = true`. -/
theorem C7_needs_revalidation_policy (parse : String → Option Int)
    (c : LicenseCache) (now : Int) :
    (c.license_key = none →
      check_license_status parse (.ok c) now =
        .ok { tier := .Free, status := .NotActivated, email := none,
              days_until_expiry := none, needs_revalidation := false }) ∧
    (∀ es E info, c.validation_expires = some es → parse es = some E →
      check_license_status parse (.ok c) now = .ok info →
      info.status = .Valid →
      (info.needs_revalidation = true ↔ numDays (E - now) < 7)) ∧
    (∀ lr info, check_license_status parse lr now = .ok info →
      info.status = .GracePeriod ∨ info.status = .Expired →
      info.needs_revalidation = true) := by
  refine ⟨fun hk => check_no_key parse c now hk, ?_, ?_⟩
  · intro es E info hes hE hck hst
    rcases hkey : c.license_key with _ | k
    · rw [check_no_key parse c now hkey] at hck
      cases hck
      simp at hst
    · have hk : c.license_key.isSome := by rw [hkey]; rfl
      rw [check_parsed parse c now es E hk hes hE] at hck
      by_cases hgt : now > E
      · rw [if_pos hgt] at hck
        by_cases hge : now >
            ((c.grace_period_start.bind fun s => parse s).getD E) +
              durationDays GRACE_PERIOD_DAYS
        · rw [if_pos hge] at hck; cases hck; simp at hst
        · rw [if_neg hge] at hck; cases hck; simp at hst
      · rw [if_neg hgt] at hck
        cases hck
        simp
  · intro lr info hck hst
    cases lr with
    | error e => rw [check_err] at hck; cases hck
    | ok c' =>
      rcases hkey : c'.license_key with _ | k
      · rw [check_no_key parse c' now hkey] at hck
        cases hck
        rcases hst with h | h <;> simp at h
      · have hk : c'.license_key.isSome := by rw [hkey]; rfl
        rcases hb : c'.validation_expires.bind parse with _ | E
        · rw [check_fallback parse c' now hk hb] at hck
          cases hck
          rfl
        · obtain ⟨es, hes, hE⟩ := Option.bind_eq_some.mp hb
          rw [check_parsed parse c' now es E hk hes hE] at hck
          by_cases hgt : now > E
          · rw [if_pos hgt] at hck
            by_cases hge : now >
                ((c'.grace_period_start.bind fun s => parse s).getD E) +
                  durationDays GRACE_PERIOD_DAYS
            · rw [if_pos hge] at hck; cases hck; rfl
            · rw [if_neg hge] at hck; cases hck; rfl
          · rw [if_neg hgt] at hck
            cases hck
            rcases hst with h | h <;> simp at h

end Wingman

namespace Wingman

/-- C1 (amended): status boundaries of the status engine for a cached
record with a license key, a `validation_expires` parsing as `E`, and no
(parseable) `grace_period_start`: `Valid` with the cached tier when
`now ≤ E` (boundary inclusive), `GracePeriod` with the cached tier when
`E < now ≤ E + 90d`, and `Expired` with tier forced to `Free` and
`days_until_expiry = 0` when `now > E + 90d`. -/
theorem C1_status_boundaries (parse : String → Option Int)
    (c : LicenseCache) (now : Int) (es : String) (E : Int)
    (hk : c.license_key.isSome)
    (hes : c.validation_expires = some es)
    (hE : parse es = some E)
    (hg : (c.grace_period_start.bind fun s => parse s) = none) :
    (now ≤ E →
      check_license_status parse (.ok c) now =
        .ok { tier := c.tier, status := .Valid, email := c.email,
              days_until_expiry := some (max (numDays (E - now)) 0),
              needs_revalidation := decide (numDays (E - now) < 7) }) ∧
    (E < now → now ≤ E + durationDays GRACE_PERIOD_DAYS →
      check_license_status parse (.ok c) now =
        .ok { tier := c.tier, status := .GracePeriod, email := c.email,
              days_until_expiry :=
                some (max (numDays (E + durationDays GRACE_PERIOD_DAYS - now)) 0),
              needs_revalidation := true }) ∧
    (E + durationDays GRACE_PERIOD_DAYS < now →
      check_license_status parse (.ok c) now =
        .ok { tier := .Free, status := .Expired, email := c.email,
              days_until_expiry := some 0, needs_revalidation := true }) := by
  rw [check_parsed parse c now es E hk hes hE, hg]
  refine ⟨fun h => ?_, fun h₁ h₂ => ?_, fun h => ?_⟩
  · rw [if_neg (not_lt.mpr h)]
  · rw [if_pos h₁]
    simp only [Option.getD_none]
    rw [if_neg (not_lt.mpr h₂)]
  · rw [if_pos (lt_trans (by
      have : (0 : Int) < durationDays GRACE_PERIOD_DAYS := by decide
      linarith) h)]
    simp only [Option.getD_none]
    rw [if_pos h]

end Wingman

namespace Wingman

/-- Witness for C1: a Pro record expiring at day 10, queried at time 0,
is `Valid` with 10 days left. -/
theorem C1_status_boundaries_witness :
    check_license_status
        (fun s => if s = "exp" then some 864000 else none)
        (.ok { license_key := some "K", email := some "u@x", tier := .Pro,
               status := .Valid, device_id := "dev", last_validated := none,
               validation_expires := some "exp", grace_period_start := none })
        0 =
      .ok { tier := .Pro, status := .Valid, email := some "u@x",
            days_until_expiry := some 10, needs_revalidation := false } :=
  (C1_status_boundaries
    (fun s => if s = "exp" then some 864000 else none)
    { license_key := some "K", email := some "u@x", tier := .Pro,
      status := .Valid, device_id := "dev", last_validated := none,
      validation_expires := some "exp", grace_period_start := none }
    0 "exp" 864000 (by decide) rfl (by decide) rfl).1 (by decide)

/-- Counterexample for C1 as frozen: a record whose stored
`grace_period_start` parses to an instant 10 days before
`validation_expires` minus 90 days. At `now` = day 95, with
`E` = day 10, we have `E < now ≤ E + 90d`, so the claim demands
`GracePeriod` with the cached tier (`Pro`); the code instead starts the
grace window at the stored `grace_period_start` (day 0) and returns
`Expired` with tier `Free`. -/
theorem C1_counterexample :
    ((10 * 86400 : Int) < 95 * 86400 ∧
     (95 * 86400 : Int) ≤ 10 * 86400 + durationDays GRACE_PERIOD_DAYS) ∧
    check_license_status
        (fun s => if s = "e" then some (10 * 86400) else
                  if s = "g" then some 0 else none)
        (.ok { license_key := some "K", email := none, tier := .Pro,
               status := .Valid, device_id := "d", last_validated := none,
               validation_expires := some "e", grace_period_start := some "g" })
        (95 * 86400) =
      .ok { tier := .Free, status := .Expired, email := none,
            days_until_expiry := some 0, needs_revalidation := true } :=
  ⟨by decide, rfl⟩

/-- C9 (amended): the result of a status check never depends on the
persisted `status` field as long as the engine path is taken, i.e. the
license key is absent or `validation_expires` parses; only the fallback
path (key present, `validation_expires` absent or unparseable) echoes the
stored status. -/
theorem C9_stored_status_not_trusted (parse : String → Option Int)
    (c : LicenseCache) (now : Int) (s₁ s₂ : LicenseStatus)
    (h : c.license_key = none ∨
      (c.validation_expires.bind fun s => parse s).isSome = true) :
    check_license_status parse (.ok { c with status := s₁ }) now =
    check_license_status parse (.ok { c with status := s₂ }) now := by
  rcases h with h | h
  · rw [check_no_key parse { c with status := s₁ } now h,
        check_no_key parse { c with status := s₂ } now h]
  · obtain ⟨E, hE⟩ := Option.isSome_iff_exists.mp h
    obtain ⟨es, hes, hpe⟩ := Option.bind_eq_some.mp hE
    rcases hkey : c.license_key with _ | k <;>
      simp [check_license_status, hes, hpe]

/-- Witness for C9 (amended), on a record whose `validation_expires`
parses: flipping the stored status from `Valid` to `Expired` leaves the
status check unchanged. -/
theorem C9_stored_status_not_trusted_witness :
    check_license_status (fun _ => some 5)
        (.ok { license_key := some "K", email := none, tier := .Pro,
               status := .Valid, device_id := "d", last_validated := none,
               validation_expires := some "x", grace_period_start := none })
        0 =
    check_license_status (fun _ => some 5)
        (.ok { license_key := some "K", email := none, tier := .Pro,
               status := .Expired, device_id := "d", last_validated := none,
               validation_expires := some "x", grace_period_start := none })
        0 :=
  C9_stored_status_not_trusted (fun _ => some 5)
    { license_key := some "K", email := none, tier := .Pro,
      status := .NotActivated, device_id := "d", last_validated := none,
      validation_expires := some "x", grace_period_start := none }
    0 .Valid .Expired (Or.inr (by decide))

/-- Counterexample for C9 as frozen: two cached records that differ only
in the stored status (key present, `validation_expires` absent) get
different results from the status check — the fallback branch reports the
stored status. -/
theorem C9_counterexample :
    ¬ ((check_license_status (fun _ => none)
          (.ok { license_key := some "K", email := none, tier := .Pro,
                 status := .Valid, device_id := "d", last_validated := none,
                 validation_expires := none, grace_period_start := none })
          0).toOption =
        (check_license_status (fun _ => none)
          (.ok { license_key := some "K", email := none, tier := .Pro,
                 status := .Expired, device_id := "d", last_validated := none,
                 validation_expires := none, grace_period_start := none })
          0).toOption) := by
  decide

end Wingman

namespace Wingman

/-- C8 (amended): when the cache file exists but cannot be decrypted,
`load_license_cache` returns the `EncryptionError`, `check_license_status`
propagates that error to its caller (the `?` operator on its first line)
rather than reporting `NotActivated`, and the fail-closed step happens in
`is_feature_enabled`, which maps the failed status check to `false`. -/
theorem C8_decryption_failure_fail_closed (cm : CryptoModel)
    (device_id enc : String) (e : LicenseError) (parse : String → Option Int)
    (now : Int) (feature : ProFeature)
    (hdec : decrypt_cache cm enc device_id = .error e) :
    load_license_cache cm device_id ⟨some enc⟩ = .error e ∧
    check_license_status parse (load_license_cache cm device_id ⟨some enc⟩)
        now = .error e ∧
    is_feature_enabled parse (load_license_cache cm device_id ⟨some enc⟩)
        now feature = false := by
  have hl : load_license_cache cm device_id ⟨some enc⟩ = .error e := hdec
  refine ⟨hl, ?_, ?_⟩
  · rw [hl]
    rfl
  · rw [is_feature_enabled, hl]
    rfl

/-- A bundle of library primitives on which every decryption fails at the
base64 step (any constant model with a failing stage would do). -/
def cmAllFail : CryptoModel where
  sha256 := fun _ => []
  serialize := fun _ => []
  deserialize := fun _ => none
  b64encode := fun _ => ""
  b64decode := fun _ => none
  aeadEncrypt := fun _ _ _ => []
  aeadDecrypt := fun _ _ _ => none

/-- Witness for C8 (amended): with an undecryptable cache file, the status
check returns the `EncryptionError` itself. -/
theorem C8_decryption_failure_fail_closed_witness :
    check_license_status (fun _ => none)
        (load_license_cache cmAllFail "dev" ⟨some "blob"⟩) 0 =
      .error (.EncryptionError "base64 decode error") :=
  (C8_decryption_failure_fail_closed cmAllFail "dev" "blob"
    (.EncryptionError "base64 decode error") (fun _ => none) 0
    .History rfl).2.1

/-- Counterexample for C8 as frozen: with an existing but undecryptable
cache file, `check_license_status` does propagate the decryption error —
it returns an `Except.error`, never any `Except.ok` (in particular not the
`NotActivated`/`Free` result the claim requires). -/
theorem C8_counterexample :
    check_license_status (fun _ => none)
        (load_license_cache cmAllFail "d" ⟨some "xyz"⟩) 0 =
      .error (.EncryptionError "base64 decode error") ∧
    (check_license_status (fun _ => none)
        (load_license_cache cmAllFail "d" ⟨some "xyz"⟩) 0).toOption = none :=
  ⟨rfl, rfl⟩

end Wingman

namespace Wingman

/-- C3: interpretation of the activation response. Validity flag false
with a message mentioning the device limit yields `DeviceLimitExceeded`,
false with another message yields `ValidationError` with it, false with no
message yields `InvalidLicense`; a non-success HTTP status even with a
true validity flag yields `ValidationError`; on success a record is built
with the given key and email, tier `Pro` exactly when the tier field is
the string "pro", status `Valid`, `last_validated = now`,
`validation_expires = now + 30 days`, no grace start; it is persisted
before being returned and a persist failure fails the whole operation. -/
theorem C3_validate_response_interpretation (lk em dev : String) (st : Bool)
    (body : ValidateLicenseResponse) (now : Int) (toRfc : Int → String)
    (save_result : LicenseCache → Except LicenseError Unit) :
    (body.valid = false → ∀ err, body.error = some err →
      validate_license_online lk em dev st body now toRfc save_result =
        (if strContains err "device limit" then .error .DeviceLimitExceeded
         else .error (.ValidationError err))) ∧
    (body.valid = false → body.error = none →
      validate_license_online lk em dev st body now toRfc save_result =
        .error .InvalidLicense) ∧
    (body.valid = true → st = false →
      validate_license_online lk em dev st body now toRfc save_result =
        .error (.ValidationError (body.message.getD "Validation failed"))) ∧
    (body.valid = true → st = true → ∀ r,
      r = { license_key := some lk, email := some em,
            tier := if body.tier = some "pro" then .Pro else .Free,
            status := .Valid, device_id := dev,
            last_validated := some (toRfc now),
            validation_expires :=
              some (toRfc (now + durationDays OFFLINE_CHECK_DAYS)),
            grace_period_start := none } →
      (save_result r = .ok () →
        validate_license_online lk em dev st body now toRfc save_result =
          .ok r) ∧
      (∀ e, save_result r = .error e →
        validate_license_online lk em dev st body now toRfc save_result =
          .error e)) := by
  refine ⟨?_, ?_, ?_, ?_⟩
  · intro hv err herr
    simp [validate_license_online, hv, herr]
  · intro hv herr
    simp [validate_license_online, hv, herr]
  · intro hv hst
    simp [validate_license_online, hv, hst]
  · intro hv hst r hr
    have hmain : ∀ res, save_result r = res →
        validate_license_online lk em dev st body now toRfc save_result =
          (match res with
            | .error e => .error e
            | .ok _ => .ok r) := by
      intro res hres
      subst hr
      rcases hbt : body.tier with _ | t
      · simp [validate_license_online, hv, hst, hbt] at hres ⊢
        rw [hres]
      · by_cases ht : t = "pro"
        · simp [validate_license_online, hv, hst, hbt, ht] at hres ⊢
          rw [hres]
        · simp [validate_license_online, hv, hst, hbt, ht] at hres ⊢
          rw [hres]
    exact ⟨fun hs => by simpa using hmain (.ok ()) hs,
           fun e hs => by simpa using hmain (.error e) hs⟩

end Wingman

namespace Wingman

/-- Witness for C3: a successful activation with tier "pro" and a
succeeding persist step returns the freshly built Pro record. -/
theorem C3_validate_response_interpretation_witness :
    validate_license_online "K" "a@b" "dev" true
        { valid := true, tier := some "pro", error := none, message := none }
        0 (fun _ => "t") (fun _ => .ok ()) =
      .ok { license_key := some "K", email := some "a@b", tier := .Pro,
            status := .Valid, device_id := "dev",
            last_validated := some "t", validation_expires := some "t",
            grace_period_start := none } :=
  ((C3_validate_response_interpretation "K" "a@b" "dev" true
      { valid := true, tier := some "pro", error := none, message := none }
      0 (fun _ => "t") (fun _ => .ok ())).2.2.2 rfl rfl _ rfl).1 rfl

/-- C6: deactivation clears the local cache file exactly when the remote
call reports success: the call returns `ok` iff the device id was
available and the response body decoded with `success = true`; on `ok`
the cache file is gone; on any error the file state is untouched, so a
subsequent status check (through the cache load) is unchanged. -/
theorem C6_deactivation_cache_discipline (d : Except LicenseError String)
    (http : HttpOutcome DeactivateResponse) (fs : FileState) :
    ((deactivate_license_online d http fs).1 = .ok () ↔
      (∃ dev st body, d = .ok dev ∧ http = .response st (.ok body) ∧
        body.success = true)) ∧
    ((deactivate_license_online d http fs).1 = .ok () →
      (deactivate_license_online d http fs).2.cacheFile = none) ∧
    (∀ e, (deactivate_license_online d http fs).1 = .error e →
      (deactivate_license_online d http fs).2 = fs ∧
      ∀ parse cm devid now,
        check_license_status parse
          (load_license_cache cm devid
            (deactivate_license_online d http fs).2) now =
        check_license_status parse (load_license_cache cm devid fs) now) := by
  cases d with
  | error e => simp [deactivate_license_online]
  | ok dev =>
    cases http with
    | sendFailure msg => simp [deactivate_license_online]
    | response st bodyRes =>
      cases bodyRes with
      | error msg => simp [deactivate_license_online]
      | ok body =>
        cases hbs : body.success with
        | false => simp [deactivate_license_online, hbs]
        | true =>
          obtain ⟨cf⟩ := fs
          cases cf with
          | none =>
            simp [deactivate_license_online, clear_license_cache, hbs]
            cases st
            · exact Or.inl ⟨body, ⟨rfl, rfl⟩, hbs⟩
            · exact Or.inr ⟨body, ⟨rfl, rfl⟩, hbs⟩
          | some enc =>
            simp [deactivate_license_online, clear_license_cache, hbs]
            cases st
            · exact Or.inl ⟨body, ⟨rfl, rfl⟩, hbs⟩
            · exact Or.inr ⟨body, ⟨rfl, rfl⟩, hbs⟩

/-- C10: `deactivate_license_online` never inspects the HTTP status of the
deactivation response — its result and the cache clearing depend only on
the decoded body, so a body with `success = true` under a non-success
HTTP status still clears the cache and returns `ok`; activation, in
contrast, fails on a non-success HTTP status even with a valid body. -/
theorem C10_deactivation_ignores_http_status :
    (∀ d s₁ s₂ pb fs,
      deactivate_license_online d (.response s₁ pb) fs =
        deactivate_license_online d (.response s₂ pb) fs) ∧
    (∀ dev body fs, body.success = true →
      deactivate_license_online (.ok dev) (.response false (.ok body)) fs =
        (.ok (), ⟨none⟩)) ∧
    (validate_license_online "K" "a@b" "dev" false
        { valid := true, tier := some "pro", error := none, message := none }
        0 (fun _ => "t") (fun _ => .ok ()) =
      .error (.ValidationError "Validation failed")) ∧
    (validate_license_online "K" "a@b" "dev" true
        { valid := true, tier := some "pro", error := none, message := none }
        0 (fun _ => "t") (fun _ => .ok ()) =
      .ok { license_key := some "K", email := some "a@b", tier := .Pro,
            status := .Valid, device_id := "dev",
            last_validated := some "t", validation_expires := some "t",
            grace_period_start := none }) := by
  refine ⟨?_, ?_, rfl, rfl⟩
  · intro d s₁ s₂ pb fs
    cases d with
    | error e => rfl
    | ok dev => cases pb <;> rfl
  · intro dev body fs hbs
    obtain ⟨cf⟩ := fs
    cases cf <;> simp [deactivate_license_online, clear_license_cache, hbs]

/-- Witness for C10: a deactivation response with a non-success HTTP
status but body `success = true` clears the cache and returns `ok`. -/
theorem C10_deactivation_ignores_http_status_witness :
    deactivate_license_online (.ok "dev")
        (.response false (.ok { success := true, error := none }))
        ⟨some "blob"⟩ =
      (.ok (), ⟨none⟩) :=
  C10_deactivation_ignores_http_status.2.1 "dev"
    { success := true, error := none } ⟨some "blob"⟩ rfl

/-- Witness for C6: a failed deactivation (HTTP send failure) leaves the
cache file exactly as it was. -/
theorem C6_deactivation_cache_discipline_witness :
    (deactivate_license_online (.ok "dev") (.sendFailure "down")
        ⟨some "blob"⟩).2 = ⟨some "blob"⟩ :=
  ((C6_deactivation_cache_discipline (.ok "dev") (.sendFailure "down")
      ⟨some "blob"⟩).2.2 (.NetworkError "down") rfl).1

end Wingman

namespace Wingman

/-- C4: round-trip of the encrypted cache codec. For any record, device id
and 12-byte nonce drawn during encryption, decrypting the produced blob
with the same device id yields the record back, given that the abstracted
library primitives invert each other at the values used (base64, AEAD
under the derived key, and serde-JSON at this record). -/
theorem C4_encrypt_decrypt_roundtrip (cm : CryptoModel) (nonce : Bytes)
    (r : LicenseCache) (id : String)
    (hn : nonce.length = 12)
    (hb64 : cm.b64decode (cm.b64encode
        (nonce ++ cm.aeadEncrypt (derive_key cm id) nonce (cm.serialize r))) =
      some (nonce ++ cm.aeadEncrypt (derive_key cm id) nonce (cm.serialize r)))
    (haead : cm.aeadDecrypt (derive_key cm id) nonce
        (cm.aeadEncrypt (derive_key cm id) nonce (cm.serialize r)) =
      some (cm.serialize r))
    (hser : cm.deserialize (cm.serialize r) = some r) :
    ∀ blob, encrypt_cache cm nonce r id = .ok blob →
      decrypt_cache cm blob id = .ok r := by
  intro blob hb
  have hblob : blob = cm.b64encode
      (nonce ++ cm.aeadEncrypt (derive_key cm id) nonce (cm.serialize r)) := by
    have : Except.ok (ε := LicenseError) (cm.b64encode
        (nonce ++ cm.aeadEncrypt (derive_key cm id) nonce (cm.serialize r))) =
        .ok blob := hb
    exact (Except.ok.inj this).symm
  subst hblob
  have hlen : ¬ ((nonce ++ cm.aeadEncrypt (derive_key cm id) nonce
      (cm.serialize r)).length < 12) := by
    simp [List.length_append, hn]
  simp only [decrypt_cache, hb64, hlen, if_false, ite_false,
    List.take_left' hn, List.drop_left' hn, haead, hser]

/-- A concrete instantiation of the library primitives for which the C4
round-trip hypotheses hold at the default record: identity AEAD, bytes as
raw codepoints for base64, constant serde at the default record. -/
def cmRound : CryptoModel where
  sha256 := fun b => b
  serialize := fun _ => []
  deserialize := fun _ => some LicenseCache.default
  b64encode := fun l => String.mk (l.map Char.ofNat)
  b64decode := fun s => some (s.toList.map Char.toNat)
  aeadEncrypt := fun _ _ p => p
  aeadDecrypt := fun _ _ c => some c

/-- Witness for C4: a concrete blob decrypts back to the record it was
encrypted from. -/
theorem C4_encrypt_decrypt_roundtrip_witness :
    decrypt_cache cmRound
        (cmRound.b64encode (List.replicate 12 0)) "dev" =
      .ok LicenseCache.default :=
  C4_encrypt_decrypt_roundtrip cmRound (List.replicate 12 0)
    LicenseCache.default "dev" (by decide) (by decide) rfl rfl
    (cmRound.b64encode (List.replicate 12 0)) rfl

/-- C5: cross-device rejection. A blob encrypted for device `id_a` fails
to decrypt under a different device id `id_b` with an `EncryptionError`,
never a plaintext record, given the cryptographic assumptions at the
values used: the derived keys differ (SHA-256 collision resistance) and
AEAD decryption under any other key rejects the ciphertext
(authenticity). -/
theorem C5_cross_device_rejection (cm : CryptoModel) (nonce : Bytes)
    (r : LicenseCache) (id_a id_b : String)
    (hne : id_a ≠ id_b)
    (hn : nonce.length = 12)
    (hkeys : derive_key cm id_a ≠ derive_key cm id_b)
    (hb64 : cm.b64decode (cm.b64encode
        (nonce ++ cm.aeadEncrypt (derive_key cm id_a) nonce
          (cm.serialize r))) =
      some (nonce ++ cm.aeadEncrypt (derive_key cm id_a) nonce
        (cm.serialize r)))
    (hauth : ∀ k, k ≠ derive_key cm id_a →
      cm.aeadDecrypt k nonce
        (cm.aeadEncrypt (derive_key cm id_a) nonce (cm.serialize r)) =
          none) :
    ∀ blob, encrypt_cache cm nonce r id_a = .ok blob →
      ∃ msg, decrypt_cache cm blob id_b = .error (.EncryptionError msg) := by
  intro blob hb
  have hblob : blob = cm.b64encode
      (nonce ++ cm.aeadEncrypt (derive_key cm id_a) nonce
        (cm.serialize r)) := by
    have : Except.ok (ε := LicenseError) (cm.b64encode
        (nonce ++ cm.aeadEncrypt (derive_key cm id_a) nonce
          (cm.serialize r))) = .ok blob := hb
    exact (Except.ok.inj this).symm
  subst hblob
  have hlen : ¬ ((nonce ++ cm.aeadEncrypt (derive_key cm id_a) nonce
      (cm.serialize r)).length < 12) := by
    simp [List.length_append, hn]
  refine ⟨"aead decrypt error", ?_⟩
  simp only [decrypt_cache, hb64, hlen, if_false, ite_false,
    List.take_left' hn, List.drop_left' hn,
    hauth (derive_key cm id_b) (fun h => hkeys h.symm)]

/-- A concrete instantiation of the library primitives for which the C5
hypotheses hold for devices "a" and "b": the AEAD ciphertext is the key
itself and decryption succeeds only under that key, SHA-256 is the
identity. -/
def cmCross : CryptoModel where
  sha256 := fun b => b
  serialize := fun _ => []
  deserialize := fun _ => none
  b64encode := fun l => String.mk (l.map Char.ofNat)
  b64decode := fun s => some (s.toList.map Char.toNat)
  aeadEncrypt := fun k _ _ => k
  aeadDecrypt := fun k _ c => if c = k then some [] else none

/-- Witness for C5: a concrete blob encrypted for device "a" yields an
`EncryptionError` when decrypted as device "b". -/
theorem C5_cross_device_rejection_witness :
    ∃ msg, decrypt_cache cmCross
        (cmCross.b64encode (List.replicate 12 0 ++ derive_key cmCross "a"))
        "b" = .error (.EncryptionError msg) :=
  C5_cross_device_rejection cmCross (List.replicate 12 0)
    LicenseCache.default "a" "b" (by decide) (by decide) (by decide)
    (by decide)
    (by
      intro k hk
      have : ¬ (derive_key cmCross "a" = k) := fun h => hk h.symm
      simp only [cmCross, derive_key]
      exact if_neg (by simpa [cmCross, derive_key] using this))
    (cmCross.b64encode (List.replicate 12 0 ++ derive_key cmCross "a")) rfl

end Wingman

namespace Wingman

/-- Witness for C7: a Pro record expiring in one day, queried at time 0,
is `Valid` and `needs_revalidation` is true because 1 whole day is below
the 7-day threshold. -/
theorem C7_needs_revalidation_policy_witness :
    ({ tier := .Pro, status := .Valid, email := some "u@x",
       days_until_expiry := some 1, needs_revalidation := true } :
        LicenseStatusInfo).needs_revalidation = true ↔
      numDays (86400 - 0) < 7 :=
  (C7_needs_revalidation_policy
      (fun s => if s = "exp" then some 86400 else none)
      { license_key := some "K", email := some "u@x", tier := .Pro,
        status := .Valid, device_id := "dev", last_validated := none,
        validation_expires := some "exp", grace_period_start := none }
      0).2.1 "exp" 86400
    { tier := .Pro, status := .Valid, email := some "u@x",
      days_until_expiry := some 1, needs_revalidation := true }
    rfl (by decide) rfl rfl

end Wingman
